import Mathlib

/-!
Verification development for `src/lib/sitemap-item.ts` of sitemap.js.

The file shallowly embeds the `SitemapItem` class: its constructor, the
`attrBuilder` helper, `safeDuration`, the validator registry, and `buildXML`
with its per-field emission branches (including `buildVideoElement` and the
news branch).  JS numbers are modeled as `ℚ` (the TypeScript interface types
`priority` as `number`); JS string truthiness is `s != ""`.  The XML tree the
code hands to xmlbuilder is modeled as `XNode`; serialization to a string is
an external collaborator (spec / section 6) and is not modeled.  Exceptions
are modeled by a `(nodes, Option SMError)` pair so that the mutation the code
performs on `this.url` before a validation check fires stays observable.
-/

/-- JS truthiness of a string: only the empty string is falsy. -/
def strTruthy (s : String) : Bool := s != ""

/-- JS truthiness of an optional string (`undefined` is falsy). -/
def optStrTruthy : Option String → Bool
  | some s => strTruthy s
  | none => false

/-- Models JS `x || null` on an optional string field: a falsy value becomes null. -/
def strOrNull : Option String → Option String
  | some s => if strTruthy s then some s else none
  | none => none

/-- Split a character list at every occurrence of `sep`, like JS `String.prototype.split`. -/
def splitChar (sep : Char) : List Char → List (List Char)
  | [] => [[]]
  | c :: rest =>
    let r := splitChar sep rest
    if c = sep then [] :: r
    else
      match r with
      | [] => [[c]]
      | h :: t => (c :: h) :: t

/-- Models JS `key.split(':')`. -/
def splitOnColon (s : String) : List String :=
  (splitChar ':' s.data).map String.mk

/-- Helper for substring containment: does `pat` occur as a prefix at any position? -/
def containsAux (pat : List Char) : List Char → Bool
  | [] => pat.isPrefixOf ([] : List Char)
  | c :: rest => pat.isPrefixOf (c :: rest) || containsAux pat rest

/-- Substring containment, the meaning of an unanchored regex alternative under `.test`. -/
def strContainsSub (s pat : String) : Bool := containsAux pat.data s.data

/-- Meaning of a `^...`-anchored regex alternative under `.test`. -/
def strStarts (s pat : String) : Bool := pat.data.isPrefixOf s.data

/-- Meaning of a `...$`-anchored regex alternative under `.test`. -/
def strEnds (s pat : String) : Bool := pat.data.reverse.isPrefixOf s.data.reverse

/-- ASCII lower-casing of one character, for stating case-insensitive comparisons. -/
def charLower (c : Char) : Char :=
  if 'A' ≤ c ∧ c ≤ 'Z' then Char.ofNat (c.toNat + 32) else c

/-- Case-insensitive (ASCII) string equality, used to state what the spec calls
case-insensitive membership. -/
def lowerEq (a b : String) : Bool :=
  a.data.map charLower == b.data.map charLower

/-- Models JS `Number.prototype.toFixed(1)` on a rational: round to the nearest
tenth (ties toward the larger value, per ECMA-262 ToFixed) and print one
decimal digit.  Computed on `num`/`den` so that it kernel-reduces. -/
def toFixed1 (q : ℚ) : String :=
  let n : Int := (20 * q.num + (q.den : Int)).fdiv (2 * (q.den : Int))
  let sign := if n < 0 then "-" else ""
  sign ++ toString (n.natAbs / 10) ++ "." ++ toString (n.natAbs % 10)

/-- The validation failures of `src/lib/errors.ts` that `sitemap-item.ts` imports
and can throw.  `InvalidAttr` and `InvalidAttrValue` carry the offending key
(and value); the other payloads are not needed by any claim. -/
inductive SMError
  | noURL
  | changefreqInvalid
  | priorityInvalid
  | invalidVideoDuration
  | invalidAttr (key : String)
  | invalidAttrValue (key value : String)
  | invalidNewsAccessValue
  | invalidNewsFormat
  | invalidVideoDescription
  | invalidVideoFormat
deriving DecidableEq

/-- A primitive JS value handed to xmlbuilder as element text: a string or a number.
xmlbuilder stringifies numbers only at serialization time, which is external. -/
inductive JSVal
  | s (v : String)
  | n (v : ℚ)

/-- JS truthiness of a primitive value. -/
def jsTruthy : JSVal → Bool
  | .s v => strTruthy v
  | .n q => q != 0

/-- The XML tree handed to the external serializer: elements with ordered
attributes and ordered children, escaped text, CDATA text, and raw text. -/
inductive XNode
  | elem (name : String) (attrs : List (String × String)) (children : List XNode)
  | text (v : JSVal)
  | cdata (v : String)
  | raw (v : String)

/-- The regex `/^[A-Z]{3}$/` (anchored at both ends): exactly three ASCII capitals. -/
def priceCurrencyPat (v : String) : Bool :=
  v.length == 3 && v.data.all (fun c => 'A' ≤ c && c ≤ 'Z')

/-- The regex `/^rent|purchase|RENT|PURCHASE$/` under `.test`.  Alternation binds
loosest, so only the first alternative is start-anchored and only the last is
end-anchored: the value matches iff it starts with "rent", or contains
"purchase", or contains "RENT", or ends with "PURCHASE". -/
def priceTypePat (v : String) : Bool :=
  strStarts v "rent" || strContainsSub v "purchase" || strContainsSub v "RENT" ||
    strEnds v "PURCHASE"

/-- The regex `/^HD|hd|sd|SD$/` under `.test`, with the same anchoring as
`priceTypePat`: starts with "HD", or contains "hd" or "sd", or ends with "SD". -/
def priceResolutionPat (v : String) : Bool :=
  strStarts v "HD" || strContainsSub v "hd" || strContainsSub v "sd" || strEnds v "SD"

/-- The regex `/^allow|deny$/` under `.test`: starts with "allow" or ends with "deny". -/
def allowDenyPat (v : String) : Bool :=
  strStarts v "allow" || strEnds v "deny"

/-- The `validators` registry keyed by namespaced attribute key. -/
def validators : String → Option (String → Bool)
  | "price:currency" => some priceCurrencyPat
  | "price:type" => some priceTypePat
  | "price:resolution" => some priceResolutionPat
  | "platform:relationship" => some allowDenyPat
  | "restriction:relationship" => some allowDenyPat
  | _ => none

/-- Recursion of `attrBuilder`'s `reduce`: for each key defined in the source
mapping, split on `:`; a key that does not split into exactly two segments
throws `InvalidAttr`; a registered validator that rejects the value throws
`InvalidAttrValue`; otherwise `subkey → value` is appended to the mapping. -/
def attrBuilderAux (conf : String → Option String) :
    List String → List (String × String) → Except SMError (List (String × String))
  | [], attrs => .ok attrs
  | key :: rest, attrs =>
    match conf key with
    | none => attrBuilderAux conf rest attrs
    | some v =>
      let keyAr := splitOnColon key
      if keyAr.length ≠ 2 then .error (.invalidAttr key)
      else
        match validators key with
        | some pat =>
          if pat v then attrBuilderAux conf rest (attrs ++ [(keyAr.getD 1 "", v)])
          else .error (.invalidAttrValue key v)
        | none => attrBuilderAux conf rest (attrs ++ [(keyAr.getD 1 "", v)])

/-- The `attrBuilder` function.  The source also accepts a single key and wraps
it into a one-element array; call sites here always pass the list form. -/
def attrBuilder (conf : String → Option String) (keys : List String) :
    Except SMError (List (String × String)) :=
  attrBuilderAux conf keys []

/-- The `publication` sub-object of `INewsItem`.  The interface requires both
fields; at run time the code only checks truthiness, so a missing field is
modeled as the (falsy) empty string. -/
structure NewsPub where
  name : String := ""
  language : String := ""

/-- The `INewsItem` shape.  `access` is read by `buildXML` although absent from
the interface; fields the code only reads conditionally are `Option`s. -/
structure NewsItem where
  publication : Option NewsPub := none
  access : Option String := none
  genres : Option String := none
  publication_date : String := ""
  title : String := ""
  keywords : Option String := none
  stock_tickers : Option String := none

/-- One entry of `ISitemapImg`, all fields optional (`Partial<ISitemapImg>`). -/
structure ImgObj where
  url : Option String := none
  caption : Option String := none
  geoLocation : Option String := none
  title : Option String := none
  license : Option String := none

/-- An image entry is either a bare location string or an object. -/
inductive ImgVal
  | str (s : String)
  | obj (o : ImgObj)

/-- The `img` field: a single entry or an ordered sequence. -/
inductive ImgInput
  | single (i : ImgVal)
  | list (l : List ImgVal)

/-- An `ILinkItem` alternate-language link. -/
structure LinkItem where
  lang : String := ""
  url : String := ""

/-- The `tag` field of a video: a scalar string or an array of strings. -/
inductive TagVal
  | one (s : String)
  | many (l : List String)

/-- The `IVideoItem` shape.  Namespaced keys (`'player_loc:autoplay'` etc.) are
spelled with underscores; `VideoObj.attrSource` restores the string keys for
`attrBuilder`.  `duration` is typed `string|number` in the source; the string
case routes through JS numeric coercion inside the comparisons and is not
modeled — the numeric case is.  `rating`/`view_count` are only tested for
truthiness and emitted, so they keep both primitive shapes. -/
structure VideoObj where
  thumbnail_loc : String := ""
  title : String := ""
  description : String := ""
  content_loc : Option String := none
  player_loc : Option String := none
  player_loc_autoplay : Option String := none
  duration : Option ℚ := none
  expiration_date : Option String := none
  rating : Option JSVal := none
  view_count : Option JSVal := none
  publication_date : Option String := none
  family_friendly : Option String := none
  tag : Option TagVal := none
  category : Option String := none
  restriction : Option String := none
  restriction_relationship : Option String := none
  gallery_loc : Option String := none
  gallery_loc_title : Option String := none
  price : Option String := none
  price_resolution : Option String := none
  price_currency : Option String := none
  price_type : Option String := none
  requires_subscription : Option String := none
  uploader : Option String := none
  platform : Option String := none
  platform_relationship : Option String := none
  live : Option String := none

/-- Dynamic property lookup on a video object, restricted to the namespaced
keys `attrBuilder` is called with (plus `gallery_loc:title`, read directly). -/
def VideoObj.attrSource (v : VideoObj) : String → Option String
  | "player_loc:autoplay" => v.player_loc_autoplay
  | "restriction:relationship" => v.restriction_relationship
  | "price:resolution" => v.price_resolution
  | "price:currency" => v.price_currency
  | "price:type" => v.price_type
  | "gallery_loc:title" => v.gallery_loc_title
  | _ => none

/-- The `video` field: the interface declares a single `IVideoItem`, and
`buildXML` array-wraps a single object, so both shapes are representable. -/
inductive VideoInput
  | single (v : VideoObj)
  | list (l : List VideoObj)

/-- The `mobile` field: `boolean | string`. -/
inductive MobileVal
  | b (v : Bool)
  | s (v : String)

/-- JS truthiness of a `mobile` value. -/
def mobileTruthy : MobileVal → Bool
  | .b v => v
  | .s v => strTruthy v

/-- JS truthiness of an `img` value: a bare empty string is falsy, objects and
arrays (even empty ones) are truthy. -/
def imgTruthy : ImgInput → Bool
  | .single (.str s) => strTruthy s
  | .single (.obj _) => true
  | .list _ => true

/-- The `SitemapItemOptions` configuration.  `lastmodfile` and `lastmod` derive
the timestamp through `fs.statSync` / `Date` plus `utils.getTimestampFromDate`,
all external collaborators (spec, sections 1 and 4.1; `utils.ts` is outside
`src/`), so the model takes the already-normalized timestamp as the
`lastmodISO` pass-through value.  `root` is xmlbuilder plumbing and `cdata`
controls raw emission of `loc`. -/
structure Config where
  safe : Bool := false
  lastmodISO : Option String := none
  changefreq : Option String := none
  priority : Option ℚ := none
  news : Option NewsItem := none
  img : Option ImgInput := none
  links : Option (List LinkItem) := none
  expires : Option String := none
  androidLink : Option String := none
  mobile : Option MobileVal := none
  video : Option VideoInput := none
  ampLink : Option String := none
  url : Option String := none
  cdata : Bool := false

/-- The fields a constructed `SitemapItem` instance holds. -/
structure Item where
  conf : Config
  loc : String
  lastmod : Option String
  changefreq : Option String
  priority : Option ℚ
  news : Option NewsItem
  img : Option ImgInput
  links : Option (List LinkItem)
  expires : Option String
  androidLink : Option String
  mobile : Option MobileVal
  video : Option VideoInput
  ampLink : Option String

/-- Modelled from the spec: the `CHANGEFREQ` list imported from `./types` (the
file is not under `src/`); the spec (section 3) enumerates
always, hourly, daily, weekly, monthly, yearly, never. -/
def CHANGEFREQ : List String :=
  ["always", "hourly", "daily", "weekly", "monthly", "yearly", "never"]

/-- JS truthiness of the `priority` field. -/
def priorityTruthy : Option ℚ → Bool
  | some q => q != 0
  | none => false

/-- The constructor's priority domain test `this.priority >= 0.0 && this.priority <= 1.0`.
The `typeof !== 'number'` disjunct of the source check cannot fire on the
`number`-typed model. -/
def priorityInRange : Option ℚ → Bool
  | some q => decide (0 ≤ q ∧ q ≤ 1)
  | none => false

/-- Models JS `x || null` on the `mobile` field. -/
def mobileOrNull : Option MobileVal → Option MobileVal
  | some m => if mobileTruthy m then some m else none
  | none => none

/-- Models JS `x || null` on the `img` field. -/
def imgOrNull : Option ImgInput → Option ImgInput
  | some i => if imgTruthy i then some i else none
  | none => none

/-- The `SitemapItem` constructor: requires a truthy `url`; unless `safe`,
rejects a truthy `changefreq` outside `CHANGEFREQ` and a truthy `priority`
outside `[0, 1]`; then normalizes the remaining fields with `|| null`
(`news`, `links` and `video` hold objects/arrays, which are always truthy,
so they pass through unchanged). -/
def SitemapItem.construct (conf : Config) : Except SMError Item :=
  if ¬ optStrTruthy conf.url then .error .noURL
  else if ¬ conf.safe ∧ optStrTruthy conf.changefreq ∧
      ¬ CHANGEFREQ.contains (conf.changefreq.getD "") then
    .error .changefreqInvalid
  else if ¬ conf.safe ∧ priorityTruthy conf.priority ∧ ¬ priorityInRange conf.priority then
    .error .priorityInvalid
  else
    .ok
      { conf := conf
        loc := conf.url.getD ""
        lastmod := strOrNull conf.lastmodISO
        changefreq := conf.changefreq
        priority := conf.priority
        news := conf.news
        img := imgOrNull conf.img
        links := conf.links
        expires := strOrNull conf.expires
        androidLink := strOrNull conf.androidLink
        mobile := mobileOrNull conf.mobile
        video := conf.video
        ampLink := strOrNull conf.ampLink }

/-- One emission step of the build: the child nodes it appends to the element
under construction, paired with the exception it throws (if any).  The nodes
a step emitted before throwing stay attached, exactly as the mutations on the
xmlbuilder tree do. -/
abbrev BuildStep := List XNode × Option SMError

/-- Sequence one step after an accumulated state: once an exception is pending
nothing further runs (the exception propagates), otherwise the step's nodes
are appended and its exception (if any) becomes pending. -/
def appendStep (acc s : BuildStep) : BuildStep :=
  match acc.2 with
  | some _ => acc
  | none => (acc.1 ++ s.1, s.2)

/-- Run a list of build steps from an accumulated state. -/
def runSteps : BuildStep → List BuildStep → BuildStep
  | acc, [] => acc
  | acc, s :: rest => runSteps (appendStep acc s) rest

/-- Child elements for a conditionally emitted string field holding escaped text. -/
def optElemText (name : String) : Option String → List XNode
  | some s => if strTruthy s then [.elem name [] [.text (.s s)]] else []
  | none => []

/-- Child elements for a conditionally emitted string field holding CDATA text. -/
def optElemCdata (name : String) : Option String → List XNode
  | some s => if strTruthy s then [.elem name [] [.cdata s]] else []
  | none => []

/-- A never-throwing step emitting a conditional string field. -/
def emitOptStr (name : String) (o : Option String) : BuildStep :=
  (optElemText name o, none)

/-- A never-throwing step emitting a conditional string-or-number field. -/
def emitOptJS (name : String) (o : Option JSVal) : BuildStep :=
  (match o with
   | some jv => if jsTruthy jv then [.elem name [] [.text jv]] else []
   | none => [], none)

/-- The `video:player_loc` branch: evaluates `attrBuilder(video, 'player_loc:autoplay')`
before the element is created, so an exception from it leaves no node. -/
def videoPlayerLoc (v : VideoObj) : BuildStep :=
  match v.player_loc with
  | some s =>
    if strTruthy s then
      match attrBuilder v.attrSource ["player_loc:autoplay"] with
      | .ok attrs => ([.elem "video:player_loc" attrs [.text (.s s)]], none)
      | .error e => ([], some e)
    else ([], none)
  | none => ([], none)

/-- The `video:duration` branch with `safeDuration`'s gate: a truthy duration
outside `[0, 28800]` throws `InvalidVideoDuration`, otherwise the value is
emitted unchanged. -/
def videoDuration (v : VideoObj) : BuildStep :=
  match v.duration with
  | some d =>
    if d ≠ 0 then
      if d < 0 ∨ d > 28800 then ([], some .invalidVideoDuration)
      else ([.elem "video:duration" [] [.text (.n d)]], none)
    else ([], none)
  | none => ([], none)

/-- The `video:tag` branch: a scalar tag yields one element, an array one
element per entry in order (entries are emitted without a truthiness check). -/
def videoTag (v : VideoObj) : BuildStep :=
  (match v.tag with
   | some (.one s) => if strTruthy s then [.elem "video:tag" [] [.text (.s s)]] else []
   | some (.many l) => l.map (fun t => .elem "video:tag" [] [.text (.s t)])
   | none => [], none)

/-- The `video:restriction` branch with its `relationship` attribute from `attrBuilder`. -/
def videoRestriction (v : VideoObj) : BuildStep :=
  match v.restriction with
  | some s =>
    if strTruthy s then
      match attrBuilder v.attrSource ["restriction:relationship"] with
      | .ok attrs => ([.elem "video:restriction" attrs [.text (.s s)]], none)
      | .error e => ([], some e)
    else ([], none)
  | none => ([], none)

/-- The `title` attribute of `video:gallery_loc`, read from the sibling key;
xmlbuilder drops an attribute whose value is undefined. -/
def galleryAttrs (v : VideoObj) : List (String × String) :=
  match v.gallery_loc_title with
  | some t => [("title", t)]
  | none => []

/-- The `video:gallery_loc` branch. -/
def videoGalleryLoc (v : VideoObj) : BuildStep :=
  match v.gallery_loc with
  | some s => if strTruthy s then ([.elem "video:gallery_loc" (galleryAttrs v) [.text (.s s)]], none)
              else ([], none)
  | none => ([], none)

/-- The `video:price` branch with `resolution`/`currency`/`type` attributes from
`attrBuilder`. -/
def videoPrice (v : VideoObj) : BuildStep :=
  match v.price with
  | some s =>
    if strTruthy s then
      match attrBuilder v.attrSource ["price:resolution", "price:currency", "price:type"] with
      | .ok attrs => ([.elem "video:price" attrs [.text (.s s)]], none)
      | .error e => ([], some e)
    else ([], none)
  | none => ([], none)

/-- The `video:platform` branch with its `relationship` attribute from `attrBuilder`. -/
def videoPlatform (v : VideoObj) : BuildStep :=
  match v.platform with
  | some s =>
    if strTruthy s then
      match attrBuilder v.attrSource ["platform:relationship"] with
      | .ok attrs => ([.elem "video:platform" attrs [.text (.s s)]], none)
      | .error e => ([], some e)
    else ([], none)
  | none => ([], none)

/-- The conditional branches of `buildVideoElement` after the three required
children, in source order. -/
def videoSteps (v : VideoObj) : List BuildStep :=
  [ emitOptStr "video:content_loc" v.content_loc,
    videoPlayerLoc v,
    videoDuration v,
    emitOptStr "video:expiration_date" v.expiration_date,
    emitOptJS "video:rating" v.rating,
    emitOptJS "video:view_count" v.view_count,
    emitOptStr "video:publication_date" v.publication_date,
    emitOptStr "video:family_friendly" v.family_friendly,
    videoTag v,
    emitOptStr "video:category" v.category,
    videoRestriction v,
    videoGalleryLoc v,
    videoPrice v,
    emitOptStr "video:requires_subscription" v.requires_subscription,
    emitOptStr "video:uploader" v.uploader,
    videoPlatform v,
    emitOptStr "video:live" v.live ]

/-- `buildVideoElement`: the `video:video` element is created on `this.url`
first; a non-truthy required field throws `InvalidVideoFormat` and a
description longer than 2048 characters throws `InvalidVideoDescription`,
each leaving the element empty; otherwise the three required children are
emitted and the conditional branches run in order.  The result is the child
list of the `video:video` node plus the pending exception. -/
def buildVideoElement (v : VideoObj) : BuildStep :=
  if ¬ (strTruthy v.thumbnail_loc ∧ strTruthy v.title ∧ strTruthy v.description) then
    ([], some .invalidVideoFormat)
  else if v.description.length > 2048 then
    ([], some .invalidVideoDescription)
  else
    runSteps
      ([.elem "video:thumbnail_loc" [] [.text (.s v.thumbnail_loc)],
        .elem "video:title" [] [.cdata v.title],
        .elem "video:description" [] [.cdata v.description]], none)
      (videoSteps v)

/-- `forEach(this.buildVideoElement)`: each video contributes one `video:video`
node whose children are its `buildVideoElement` result; an exception stops the
iteration with the partially built node of the failing video still attached. -/
def buildVideos : List VideoObj → BuildStep
  | [] => ([], none)
  | v :: rest =>
    let r := buildVideoElement v
    match r.2 with
    | some e => ([.elem "video:video" [] r.1], some e)
    | none =>
      let rr := buildVideos rest
      (.elem "video:video" [] r.1 :: rr.1, rr.2)

/-- One `image:image` node: a bare string becomes `image:loc` unconditionally;
an object contributes `image:loc` (if `url` is truthy), then caption (CDATA),
geo-location, title (CDATA) and license, in the insertion order of `xmlObj`. -/
def buildImageNode : ImgVal → XNode
  | .str s => .elem "image:image" [] [.elem "image:loc" [] [.text (.s s)]]
  | .obj o =>
    .elem "image:image" []
      (optElemText "image:loc" o.url ++ optElemCdata "image:caption" o.caption ++
        optElemText "image:geo_location" o.geoLocation ++ optElemCdata "image:title" o.title ++
        optElemText "image:license" o.license)

/-- The in-place array-wrapping `this.img = [this.img]` performed by the img
branch when the field is truthy and has no `length`. -/
def wrapImg : Option ImgInput → Option ImgInput
  | some i =>
    if imgTruthy i then
      match i with
      | .single x => some (.list [x])
      | .list l => some (.list l)
    else some i
  | none => none

/-- The in-place array-wrapping `this.video = [this.video]` performed by the
video branch (a single `IVideoItem` object has no `length`). -/
def wrapVideo : Option VideoInput → Option VideoInput
  | some (.single v) => some (.list [v])
  | some (.list l) => some (.list l)
  | none => none

/-- The img branch of `buildXML` (never throws). -/
def imgStep (it : Item) : BuildStep :=
  (match it.img with
   | some i =>
     if imgTruthy i then
       match i with
       | .list l => l.map buildImageNode
       | .single x => [buildImageNode x]
     else []
   | none => [], none)

/-- The video branch of `buildXML`. -/
def videoStep (it : Item) : BuildStep :=
  match it.video with
  | some (.list l) => buildVideos l
  | some (.single v) => buildVideos [v]
  | none => ([], none)

/-- The links branch: one `xhtml:link` per entry with `rel="alternate"` and the
entry's language and target (never throws; an empty array emits nothing). -/
def linksStep (it : Item) : BuildStep :=
  (match it.links with
   | some l =>
     l.map (fun lnk =>
       .elem "xhtml:link" [("rel", "alternate"), ("hreflang", lnk.lang), ("href", lnk.url)] [])
   | none => [], none)

/-- The expires branch: the value is parsed as a date and re-emitted as a strict
ISO string.  `new Date(...).toISOString()` runs in the external Date facility,
represented by the `dateISO` parameter. -/
def expiresStep (dateISO : String → String) (it : Item) : BuildStep :=
  (match it.expires with
   | some s => if strTruthy s then [.elem "expires" [] [.text (.s (dateISO s))]] else []
   | none => [], none)

/-- The androidLink branch: an `xhtml:link` with `rel="alternate"`. -/
def androidStep (it : Item) : BuildStep :=
  (match it.androidLink with
   | some l => if strTruthy l then [.elem "xhtml:link" [("rel", "alternate"), ("href", l)] []] else []
   | none => [], none)

/-- The mobile branch: a `mobile:mobile` marker, with a `type` attribute only
when the value is a string. -/
def mobileStep (it : Item) : BuildStep :=
  (match it.mobile with
   | some (.b b) => if b then [.elem "mobile:mobile" [] []] else []
   | some (.s s) => if strTruthy s then [.elem "mobile:mobile" [("type", s)] []] else []
   | none => [], none)

/-- The ampLink branch: an `xhtml:link` with `rel="amphtml"`. -/
def ampStep (it : Item) : BuildStep :=
  (match it.ampLink with
   | some l => if strTruthy l then [.elem "xhtml:link" [("rel", "amphtml"), ("href", l)] []] else []
   | none => [], none)

/-- The loc branch (the generic final `else if (this[p])` arm, plus the `cdata`
special case emitting raw unescaped markup). -/
def locStep (it : Item) : BuildStep :=
  (if strTruthy it.loc then
    if it.conf.cdata then [.elem "loc" [] [.raw it.loc]]
    else [.elem "loc" [] [.text (.s it.loc)]]
   else [], none)

/-- The priority branch: a priority inside `[0, 1]` (zero included — the branch
tests the range, not truthiness) is emitted formatted by `toFixed(1)`; a value
outside the range falls through to the generic final `else if (this[p])` arm,
which emits a `priority` element with the raw value whenever it is truthy. -/
def priorityStep (it : Item) : BuildStep :=
  (match it.priority with
   | some q =>
     if 0 ≤ q ∧ q ≤ 1 then [.elem "priority" [] [.text (.s (toFixed1 q))]]
     else if q ≠ 0 then [.elem "priority" [] [.text (.n q)]]
     else []
   | none => [], none)

/-- Whether the news format check `!publication || !publication.name ||
!publication.language || !publication_date || !title` passes. -/
def newsFormatOK (n : NewsItem) : Bool :=
  match n.publication with
  | none => false
  | some p =>
    strTruthy p.name && strTruthy p.language && strTruthy n.publication_date &&
      strTruthy n.title

/-- The `news:publication` child with its conditional name (CDATA) and language. -/
def newsPublicationNode (n : NewsItem) : List XNode :=
  match n.publication with
  | some p =>
    [.elem "news:publication" []
      ((if strTruthy p.name then [.elem "news:name" [] [.cdata p.name]] else []) ++
        (if strTruthy p.language then [.elem "news:language" [] [.text (.s p.language)]] else []))]
  | none => []

/-- The `news:access` branch: a truthy value other than `Registration` or
`Subscription` throws `InvalidNewsAccessValue`. -/
def newsAccessStep (n : NewsItem) : BuildStep :=
  match n.access with
  | some a =>
    if strTruthy a then
      if a ≠ "Registration" ∧ a ≠ "Subscription" then ([], some .invalidNewsAccessValue)
      else ([.elem "news:access" [] [.text (.s a)]], none)
    else ([], none)
  | none => ([], none)

/-- The child emissions of the news branch after the format check, in source
order: access, genres, then the unconditional publication date and title
(CDATA), then keywords and stock tickers. -/
def newsSteps (n : NewsItem) : List BuildStep :=
  [ newsAccessStep n,
    emitOptStr "news:genres" n.genres,
    ([.elem "news:publication_date" [] [.text (.s n.publication_date)]], none),
    ([.elem "news:title" [] [.cdata n.title]], none),
    emitOptStr "news:keywords" n.keywords,
    emitOptStr "news:stock_tickers" n.stock_tickers ]

/-- The news branch of `buildXML`: the `news:news` element is created on
`this.url` first, then the format check may throw (leaving the element empty
but attached); on success the children are emitted, where the access check may
still throw with the publication child already attached. -/
def newsStep (it : Item) : BuildStep :=
  match it.news with
  | some n =>
    if ¬ newsFormatOK n then ([.elem "news:news" [] []], some .invalidNewsFormat)
    else
      let inner := runSteps (newsPublicationNode n, none) (newsSteps n)
      ([.elem "news:news" [] inner.1], inner.2)
  | none => ([], none)

/-- The lastmod branch (generic final arm). -/
def lastmodStep (it : Item) : BuildStep := emitOptStr "lastmod" it.lastmod

/-- The changefreq branch (generic final arm). -/
def changefreqStep (it : Item) : BuildStep := emitOptStr "changefreq" it.changefreq

/-- The `props` iteration order of `buildXML`: loc, lastmod, changefreq,
priority, img, video, links, expires, androidLink, mobile, news, ampLink. -/
def urlSteps (dateISO : String → String) (it : Item) : List BuildStep :=
  [ locStep it, lastmodStep it, changefreqStep it, priorityStep it, imgStep it,
    videoStep it, linksStep it, expiresStep dateISO it, androidStep it, mobileStep it,
    newsStep it, ampStep it ]

/-- The outcome of one `buildXML` call: the item with its in-place array
wrappings applied, the children of the `url` element (reset to `[]` at entry),
and the exception that aborted the build, if any. -/
structure BState where
  item : Item
  children : List XNode
  err : Option SMError

/-- `buildXML`: resets `this.url`'s children, array-wraps `img`/`video` in
place, and runs the prop branches in order; an exception aborts the remaining
branches but already-attached children stay. -/
def buildXML (dateISO : String → String) (it : Item) : BState :=
  let it2 : Item := { it with img := wrapImg it.img, video := wrapVideo it.video }
  let r := runSteps ([], none) (urlSteps dateISO it2)
  { item := it2, children := r.1, err := r.2 }

/-- A trivial external Date environment (ISO strings pass through unchanged),
used to instantiate `dateISO` where the claim involves no date field. -/
def idEnv : String → String := fun s => s

/-- Construct an item from a configuration and build it once. -/
def buildConf (dateISO : String → String) (conf : Config) : Except SMError BState :=
  match SitemapItem.construct conf with
  | .error e => .error e
  | .ok it => .ok (buildXML dateISO it)

/-- The `url` children of a successful construct-and-build (`[]` if construction
threw). -/
def buildChildrenOf (dateISO : String → String) (conf : Config) : List XNode :=
  match buildConf dateISO conf with
  | .ok st => st.children
  | .error _ => []

/-- The exception pending after a successful construction's build, if any. -/
def buildErrOf (dateISO : String → String) (conf : Config) : Option SMError :=
  match buildConf dateISO conf with
  | .ok st => st.err
  | .error _ => none

/-- The constructor's exception on a configuration, if any. -/
def constructErr (conf : Config) : Option SMError :=
  match SitemapItem.construct conf with
  | .error e => some e
  | .ok _ => none

/-- The `loc` field of the item a configuration constructs (`""` on failure). -/
def constructedLoc (conf : Config) : String :=
  match SitemapItem.construct conf with
  | .ok it => it.loc
  | .error _ => ""

/-- Children of the first and second `buildXML` call on the same instance
(the second call runs on the state the first call mutated). -/
def buildTwiceChildren (dateISO : String → String) (conf : Config) :
    Option (List XNode × List XNode) :=
  match SitemapItem.construct conf with
  | .error _ => none
  | .ok it =>
    let s1 := buildXML dateISO it
    let s2 := buildXML dateISO s1.item
    some (s1.children, s2.children)

/-- A pending exception freezes the build: no later step changes the state. -/
theorem runSteps_frozen (steps : List BuildStep) (cs : List XNode) (e : SMError) :
    runSteps (cs, some e) steps = (cs, some e) := by
  induction steps with
  | nil => rfl
  | cons s rest ih => simpa [runSteps, appendStep] using ih

/-- Sequencing a non-throwing step appends its nodes and keeps running. -/
theorem runSteps_cons_of_err_none (cs : List XNode) (s : BuildStep) (rest : List BuildStep)
    (h : s.2 = none) : runSteps (cs, none) (s :: rest) = runSteps (cs ++ s.1, none) rest := by
  rcases s with ⟨ns, err⟩
  cases err with
  | none => rfl
  | some e => cases h

/-- Sequencing a throwing step attaches its nodes and stops the build. -/
theorem runSteps_cons_of_err_some (cs : List XNode) (s : BuildStep) (rest : List BuildStep)
    (e : SMError) (h : s.2 = some e) :
    runSteps (cs, none) (s :: rest) = (cs ++ s.1, some e) := by
  rcases s with ⟨ns, err⟩
  cases h
  simpa [runSteps, appendStep] using runSteps_frozen rest (cs ++ ns) e

/-- Nodes already attached stay attached through any further steps. -/
theorem mem_runSteps_of_mem (x : XNode) (steps : List BuildStep) :
    ∀ acc : BuildStep, x ∈ acc.1 → x ∈ (runSteps acc steps).1 := by
  induction steps with
  | nil => intro acc h; exact h
  | cons s rest ih =>
    intro acc h
    refine ih (appendStep acc s) ?_
    rcases acc with ⟨cs, err⟩
    cases err with
    | none => exact List.mem_append_left _ h
    | some e => exact h

/-- If sequencing one step leaves no pending exception, neither the state
before it nor the step itself carried one. -/
theorem appendStep_err_none (acc s : BuildStep) (h : (appendStep acc s).2 = none) :
    acc.2 = none ∧ s.2 = none := by
  rcases acc with ⟨cs, err⟩
  cases err with
  | none => exact ⟨rfl, h⟩
  | some e => cases h

/-- If the whole run leaves no pending exception, the initial state carried none. -/
theorem runSteps_err_none (steps : List BuildStep) :
    ∀ acc : BuildStep, (runSteps acc steps).2 = none → acc.2 = none := by
  induction steps with
  | nil => intro acc h; exact h
  | cons s rest ih =>
    intro acc h
    exact (appendStep_err_none acc s (ih (appendStep acc s) h)).1

/-- If the whole run succeeds, every listed step's nodes appear in the result. -/
theorem mem_runSteps_of_step (x : XNode) (s : BuildStep) (steps : List BuildStep) :
    ∀ acc : BuildStep, (runSteps acc steps).2 = none → s ∈ steps → x ∈ s.1 →
      x ∈ (runSteps acc steps).1 := by
  induction steps with
  | nil => intro acc _ hmem; cases hmem
  | cons s0 rest ih =>
    intro acc hnone hmem hx
    rcases List.mem_cons.mp hmem with heq | hmem0
    · subst heq
      have hacc : (appendStep acc s).2 = none :=
        runSteps_err_none rest (appendStep acc s) hnone
      have haccpre := (appendStep_err_none acc s hacc).1
      refine mem_runSteps_of_mem x rest (appendStep acc s) ?_
      rcases acc with ⟨cs, err⟩
      cases err with
      | none => exact List.mem_append_right _ hx
      | some e => cases haccpre
    · exact ih (appendStep acc s0) hnone hmem0 hx

/-- A listed step that throws forces the whole run to end with a pending
exception. -/
theorem runSteps_err_of_mem_err (s : BuildStep) (steps : List BuildStep) (e : SMError)
    (hs : s ∈ steps) (he : s.2 = some e) :
    ∀ acc : BuildStep, (runSteps acc steps).2 ≠ none := by
  induction steps with
  | nil => cases hs
  | cons s0 rest ih =>
    intro acc
    rcases acc with ⟨cs, err⟩
    cases err with
    | some e0 => rw [runSteps_frozen]; simp
    | none =>
      rcases List.mem_cons.mp hs with heq | hmem0
      · subst heq
        rw [runSteps_cons_of_err_some cs s rest e he]
        simp
      · exact ih hmem0 (appendStep (cs, none) s0)

/-- The autoplay attribute mapping `attrBuilder` extracts for `video:player_loc`. -/
def autoplayAttrs (v : VideoObj) : List (String × String) :=
  match v.player_loc_autoplay with
  | some a => [("autoplay", a)]
  | none => []

/-- On a single well-formed key with no registered validator, `attrBuilder`
never throws: it returns the singleton mapping (or an empty one). -/
theorem attrBuilder_no_validator (conf : String → Option String) (key : String)
    (hk : (splitOnColon key).length = 2) (hv : validators key = none) :
    attrBuilder conf [key] =
      .ok (match conf key with
           | some a => [((splitOnColon key).getD 1 "", a)]
           | none => []) := by
  cases h : conf key with
  | none => simp [attrBuilder, attrBuilderAux, h]
  | some a => simp [attrBuilder, attrBuilderAux, h, hk, hv]

/-- Dynamic lookup of the autoplay key on a video object. -/
theorem attrSource_playerLoc (v : VideoObj) :
    v.attrSource "player_loc:autoplay" = v.player_loc_autoplay := rfl

/-- `attrBuilder` on `player_loc:autoplay` always succeeds (the key is
two-segment and has no validator). -/
theorem attrBuilder_playerLoc (v : VideoObj) :
    attrBuilder v.attrSource ["player_loc:autoplay"] = .ok (autoplayAttrs v) := by
  rw [attrBuilder_no_validator v.attrSource "player_loc:autoplay" (by decide) rfl]
  rw [attrSource_playerLoc]
  cases h : v.player_loc_autoplay with
  | none => simp [autoplayAttrs, h]
  | some a =>
    simp only [autoplayAttrs, h]
    rw [show (splitOnColon "player_loc:autoplay").getD 1 "" = "autoplay" by decide]

/-- The `video:player_loc` branch never throws. -/
theorem videoPlayerLoc_err_none (v : VideoObj) : (videoPlayerLoc v).2 = none := by
  unfold videoPlayerLoc
  cases h : v.player_loc with
  | none => rfl
  | some s =>
    simp only [attrBuilder_playerLoc]
    split <;> rfl

/-- `emitOptStr` never throws. -/
theorem emitOptStr_err_none (name : String) (o : Option String) :
    (emitOptStr name o).2 = none := rfl

/-- `emitOptJS` never throws. -/
theorem emitOptJS_err_none (name : String) (o : Option JSVal) :
    (emitOptJS name o).2 = none := rfl

/-- The rational 0.7, given in normal form so that it kernel-reduces. -/
def q07 : ℚ := Rat.mk' 7 10 (by norm_num) (by norm_num)

/-- The rational 1.5, given in normal form so that it kernel-reduces. -/
def q15 : ℚ := Rat.mk' 3 2 (by norm_num) (by norm_num)

/-- The configuration of the end-to-end property of C7. -/
def conf7 : Config :=
  { url := some "https://example.com/a", changefreq := some "daily", priority := some q07 }

/-- The safe-mode, out-of-range-priority configuration of C1 and C9. -/
def conf_safe15 : Config :=
  { url := some "https://example.com/a", safe := true, priority := some q15 }

/-- C7: the configuration `{url: "https://example.com/a", changefreq: "daily",
priority: 0.7}` builds an item node whose children are exactly `loc` with the
url text, `changefreq` with text `daily`, and `priority` with text `0.7`
(one decimal place), in that order, with no exception pending. -/
theorem C7_thm :
    buildChildrenOf idEnv conf7 =
      [.elem "loc" [] [.text (.s "https://example.com/a")],
       .elem "changefreq" [] [.text (.s "daily")],
       .elem "priority" [] [.text (.s "0.7")]] ∧
    buildErrOf idEnv conf7 = none :=
  ⟨rfl, rfl⟩

/-- C8: a configuration whose `url` is absent (or falsy) fails construction
with the Missing-URL error, and every successfully constructed item carries a
truthy `loc` — an item without a url cannot exist. -/
theorem C8_thm :
    (∀ conf : Config, optStrTruthy conf.url = false →
      SitemapItem.construct conf = .error .noURL) ∧
    (∀ (conf : Config) (it : Item), SitemapItem.construct conf = .ok it →
      strTruthy it.loc = true) := by
  constructor
  · intro conf h
    unfold SitemapItem.construct
    rw [if_pos]
    simp [h]
  · intro conf it h
    unfold SitemapItem.construct at h
    by_cases hu : optStrTruthy conf.url = true
    · rw [if_neg (by simp [hu])] at h
      split at h
      · cases h
      · split at h
        · cases h
        · injection h with h2
          subst h2
          cases hcu : conf.url with
          | none => rw [hcu] at hu; simp [optStrTruthy] at hu
          | some s =>
            rw [hcu] at hu
            simpa [optStrTruthy, hcu] using hu
    · rw [if_pos (by simpa using hu)] at h
      cases h

/-- C8 witness: the empty configuration fails with Missing-URL, and the item
constructed from a url-bearing configuration has a truthy `loc`. -/
theorem C8_witness :
    SitemapItem.construct {} = .error .noURL ∧
    strTruthy (constructedLoc { url := some "https://example.com/a" }) = true :=
  ⟨C8_thm.1 {} rfl,
   C8_thm.2 { url := some "https://example.com/a" } _ rfl⟩

/-- C9 counterexample: already the first build of the safe-mode configuration
with priority 1.5 emits a `priority` element (carrying the raw value), where
the claim promises output with no priority element both times. -/
theorem C9_cx :
    buildChildrenOf idEnv conf_safe15 =
      [.elem "loc" [] [.text (.s "https://example.com/a")],
       .elem "priority" [] [.text (.n q15)]] :=
  rfl

/-- C9 as amended: building the safe-mode configuration with priority 1.5 twice
on the same instance yields identical output both times, and both outputs
contain a `priority` element carrying the raw out-of-range value — the
repeated build is idempotent, but the element is emitted, not omitted. -/
theorem C9_thm :
    buildTwiceChildren idEnv conf_safe15 =
      some ([.elem "loc" [] [.text (.s "https://example.com/a")],
             .elem "priority" [] [.text (.n q15)]],
            [.elem "loc" [] [.text (.s "https://example.com/a")],
             .elem "priority" [] [.text (.n q15)]]) :=
  rfl

/-- C1 counterexample: with `safe` set and the out-of-range priority 1.5, the
build succeeds and its output does contain a `priority` element (the value
falls through to the generic emission arm), where the claim promises that the
output contains no priority element. -/
theorem C1_cx :
    ¬ (0 ≤ q15 ∧ q15 ≤ 1) ∧
    buildErrOf idEnv conf_safe15 = none ∧
    XNode.elem "priority" [] [.text (.n q15)] ∈ buildChildrenOf idEnv conf_safe15 := by
  refine ⟨by decide, rfl, ?_⟩
  rw [show buildChildrenOf idEnv conf_safe15 =
    [.elem "loc" [] [.text (.s "https://example.com/a")],
     .elem "priority" [] [.text (.n q15)]] from rfl]
  exact List.mem_cons_of_mem _ (List.mem_singleton.mpr rfl)

/-- C1 as amended: with `safe` unset (and a present url and an absent-or-valid
changefreq) a priority outside `[0, 1]` fails construction with the
Invalid-priority error (a non-number priority is outside the `number`-typed
interface and is not representable here); with `safe` set, any priority value
is accepted, but an out-of-range priority is not omitted from the output — it
falls through to the generic emission arm and yields a `priority` element
carrying the raw unformatted value. -/
theorem C1_thm :
    (∀ (conf : Config) (q : ℚ), conf.safe = false → conf.priority = some q →
      ¬ (0 ≤ q ∧ q ≤ 1) → optStrTruthy conf.url = true →
      (optStrTruthy conf.changefreq = false ∨
        CHANGEFREQ.contains (conf.changefreq.getD "") = true) →
      SitemapItem.construct conf = .error .priorityInvalid) ∧
    (∀ (q : ℚ) (dateISO : String → String), ¬ (0 ≤ q ∧ q ≤ 1) →
      ∃ it, SitemapItem.construct
          { url := some "https://example.com/a", safe := true, priority := some q } = .ok it ∧
        XNode.elem "priority" [] [.text (.n q)] ∈ (buildXML dateISO it).children) := by
  constructor
  · intro conf q hs hp hr hu hcf
    have hq0 : q ≠ 0 := by
      rintro rfl
      exact hr ⟨le_refl 0, by norm_num⟩
    unfold SitemapItem.construct
    rw [if_neg (by simp [hu])]
    rw [if_neg (by
      rintro ⟨-, h2, h3⟩
      rcases hcf with hcf | hcf
      · rw [hcf] at h2; cases h2
      · exact h3 hcf)]
    rw [if_pos ⟨by simp [hs], by simp [hp, priorityTruthy, hq0],
      by simp [hp, priorityInRange, hr]⟩]
  · intro q dateISO hr
    have hq0 : q ≠ 0 := by
      rintro rfl
      exact hr ⟨le_refl 0, by norm_num⟩
    refine ⟨_, rfl, ?_⟩
    simp only [buildXML, urlSteps]
    rw [runSteps_cons_of_err_none _ _ _ rfl]
    rw [runSteps_cons_of_err_none _ _ _ rfl]
    rw [runSteps_cons_of_err_none _ _ _ rfl]
    rw [runSteps_cons_of_err_none _ _ _ rfl]
    refine mem_runSteps_of_mem _ _ _ (List.mem_append_right _ ?_)
    have hps : ∀ it : Item, it.priority = some q →
        (priorityStep it).1 = [XNode.elem "priority" [] [.text (.n q)]] := by
      intro it hit
      simp only [priorityStep, hit]
      rw [if_neg hr, if_pos hq0]
    rw [hps _ rfl]
    exact List.Mem.head _

/-- C1 witness: priority 2 with `safe` unset fails construction with
Invalid-priority, and priority 1.5 with `safe` set is accepted and emitted raw. -/
theorem C1_witness :
    SitemapItem.construct { url := some "https://example.com/a", priority := some 2 } =
      .error .priorityInvalid ∧
    (∃ it, SitemapItem.construct
        { url := some "https://example.com/a", safe := true, priority := some q15 } = .ok it ∧
      XNode.elem "priority" [] [.text (.n q15)] ∈ (buildXML idEnv it).children) :=
  ⟨C1_thm.1 { url := some "https://example.com/a", priority := some 2 } 2 rfl rfl
      (by decide) (by decide) (Or.inl rfl),
   C1_thm.2 q15 idEnv (by decide)⟩

/-- The all-defaults configuration with priority exactly 0 used in C10's witness. -/
def conf_p0 : Config := { url := some "https://example.com/a", priority := some 0 }

/-- C10: a configuration with priority exactly 0 and `safe` unset (given a
present url and an absent-or-valid changefreq) constructs successfully — the
falsy value 0 skips the constructor's priority domain check — and the built
output contains a `priority` element with text `0.0`: the priority emission
branch tests the range, not truthiness, so the in-range falsy value is still
emitted. -/
theorem C10_thm :
    ∀ (conf : Config) (dateISO : String → String), conf.priority = some 0 →
      conf.safe = false → optStrTruthy conf.url = true →
      (optStrTruthy conf.changefreq = false ∨
        CHANGEFREQ.contains (conf.changefreq.getD "") = true) →
      ∃ it, SitemapItem.construct conf = .ok it ∧
        XNode.elem "priority" [] [.text (.s "0.0")] ∈ (buildXML dateISO it).children := by
  intro conf dateISO hp hs hu hcf
  unfold SitemapItem.construct
  rw [if_neg (by simp [hu])]
  rw [if_neg (by
    rintro ⟨-, h2, h3⟩
    rcases hcf with hcf | hcf
    · rw [hcf] at h2; cases h2
    · exact h3 hcf)]
  rw [if_neg (by
    rintro ⟨-, h2, -⟩
    rw [hp] at h2
    simp [priorityTruthy] at h2)]
  refine ⟨_, rfl, ?_⟩
  simp only [buildXML, urlSteps]
  rw [runSteps_cons_of_err_none _ _ _ rfl]
  rw [runSteps_cons_of_err_none _ _ _ rfl]
  rw [runSteps_cons_of_err_none _ _ _ rfl]
  rw [runSteps_cons_of_err_none _ _ _ rfl]
  refine mem_runSteps_of_mem _ _ _ (List.mem_append_right _ ?_)
  have hps : ∀ it : Item, it.priority = some 0 →
      (priorityStep it).1 = [XNode.elem "priority" [] [.text (.s "0.0")]] := by
    intro it hit
    simp only [priorityStep, hit]
    rw [if_pos (by norm_num)]
    rw [show toFixed1 0 = "0.0" by decide]
  rw [hps _ (by simp [hp])]
  exact List.Mem.head _

/-- C10 witness: the concrete configuration with priority 0 constructs and its
output contains the `priority` element with text `0.0`. -/
theorem C10_witness :
    ∃ it, SitemapItem.construct conf_p0 = .ok it ∧
      XNode.elem "priority" [] [.text (.s "0.0")] ∈ (buildXML idEnv it).children :=
  C10_thm conf_p0 idEnv rfl rfl (by decide) (Or.inl rfl)

/-- The `video:player_loc` branch emits nothing when the field is absent. -/
theorem videoPlayerLoc_none (v : VideoObj) (h : v.player_loc = none) :
    videoPlayerLoc v = ([], none) := by
  unfold videoPlayerLoc
  rw [h]

/-- C2 counterexample: the configuration with a video whose duration is -1
fails the build with Invalid-video-duration, yet the item's XML state has
gained a partially built `video:video` node (holding the three children
emitted before the duration gate fired), and the trailing `ampLink` branch
never ran — contradicting "the item's XML state gains no partially built
extension content from the failed step". -/
theorem C2_cx :
    buildErrOf idEnv
      { url := some "https://example.com/v",
        video := some (.single { thumbnail_loc := "https://example.com/t.jpg", title := "T",
                                 description := "D", duration := some (-1) }),
        ampLink := some "https://example.com/amp" } = some .invalidVideoDuration ∧
    buildChildrenOf idEnv
      { url := some "https://example.com/v",
        video := some (.single { thumbnail_loc := "https://example.com/t.jpg", title := "T",
                                 description := "D", duration := some (-1) }),
        ampLink := some "https://example.com/amp" } =
      [.elem "loc" [] [.text (.s "https://example.com/v")],
       .elem "video:video" []
         [.elem "video:thumbnail_loc" [] [.text (.s "https://example.com/t.jpg")],
          .elem "video:title" [] [.cdata "T"],
          .elem "video:description" [] [.cdata "D"]]] :=
  ⟨rfl, rfl⟩

/-- C2 as amended: a validation failure aborts the build — once an exception is
pending, no later step adds anything and the exception propagates, so nothing
is returned — but the XML state is not left untouched: a video whose duration
fails the gate (with the earlier conditional fields absent) leaves exactly the
three required children already emitted inside its extension node. -/
theorem C2_thm :
    (∀ (e : SMError) (cs : List XNode) (steps : List BuildStep),
      runSteps (cs, some e) steps = (cs, some e)) ∧
    (∀ (v : VideoObj) (d : ℚ), strTruthy v.thumbnail_loc = true → strTruthy v.title = true →
      strTruthy v.description = true → v.description.length ≤ 2048 →
      v.content_loc = none → v.player_loc = none → v.duration = some d → d ≠ 0 →
      (d < 0 ∨ d > 28800) →
      buildVideoElement v =
        ([.elem "video:thumbnail_loc" [] [.text (.s v.thumbnail_loc)],
          .elem "video:title" [] [.cdata v.title],
          .elem "video:description" [] [.cdata v.description]],
         some .invalidVideoDuration)) := by
  constructor
  · intro e cs steps
    exact runSteps_frozen steps cs e
  · intro v d h1 h2 h3 h4 hc hp hd hd0 hrange
    unfold buildVideoElement
    rw [if_neg (by simp [h1, h2, h3])]
    rw [if_neg (by omega)]
    simp only [videoSteps]
    rw [hc, videoPlayerLoc_none v hp]
    rw [runSteps_cons_of_err_none _ _ _ rfl]
    rw [runSteps_cons_of_err_none _ _ _ rfl]
    have hdur : videoDuration v = ([], some .invalidVideoDuration) := by
      simp only [videoDuration, hd]
      rw [if_pos hd0, if_pos hrange]
    rw [hdur, runSteps_cons_of_err_some _ _ _ _ rfl]
    simp [emitOptStr, optElemText]

/-- C2 witness: the frozen-state property at a concrete pending exception, and
the partial-retention property at the concrete video that fails its duration
gate. -/
theorem C2_witness :
    runSteps ([], some SMError.invalidVideoFormat) [([], none)] =
      ([], some SMError.invalidVideoFormat) ∧
    buildVideoElement { thumbnail_loc := "https://example.com/t.jpg", title := "T",
                        description := "D", duration := some (-1) } =
      ([.elem "video:thumbnail_loc" [] [.text (.s "https://example.com/t.jpg")],
        .elem "video:title" [] [.cdata "T"],
        .elem "video:description" [] [.cdata "D"]],
       some .invalidVideoDuration) :=
  ⟨C2_thm.1 .invalidVideoFormat [] [([], none)],
   C2_thm.2 { thumbnail_loc := "https://example.com/t.jpg", title := "T",
              description := "D", duration := some (-1) } (-1)
     (by decide) (by decide) (by decide) (by decide) rfl rfl rfl (by norm_num)
     (by norm_num)⟩

/-- A minimal valid video with duration 0 (the inclusive lower boundary). -/
def video_d0 : VideoObj :=
  { thumbnail_loc := "https://example.com/t.jpg", title := "T", description := "D",
    duration := some 0 }

/-- A minimal valid video with duration 28800 (the inclusive upper boundary). -/
def video_d28800 : VideoObj :=
  { thumbnail_loc := "https://example.com/t.jpg", title := "T", description := "D",
    duration := some 28800 }

/-- A minimal video with duration 28801, just above the boundary. -/
def video_d28801 : VideoObj :=
  { thumbnail_loc := "https://example.com/t.jpg", title := "T", description := "D",
    duration := some 28801 }

/-- C3: on an otherwise valid video, duration 28801 fails the build with the
Invalid-video-duration error; durations 0 and 28800 both succeed (the
boundary is inclusive — 0 is falsy and skips the gate entirely, emitting no
duration element); and whenever a build with a truthy duration succeeds, the
output carries a `video:duration` element with exactly the given value — the
check is a gate, not a clamp. -/
theorem C3_thm :
    (∀ v : VideoObj, strTruthy v.thumbnail_loc = true → strTruthy v.title = true →
      strTruthy v.description = true → v.description.length ≤ 2048 →
      v.duration = some 28801 → (buildVideoElement v).2 = some .invalidVideoDuration) ∧
    (buildVideoElement video_d0).2 = none ∧
    ((buildVideoElement video_d28800).2 = none ∧
      XNode.elem "video:duration" [] [.text (.n 28800)] ∈ (buildVideoElement video_d28800).1) ∧
    (∀ (v : VideoObj) (d : ℚ), v.duration = some d → d ≠ 0 →
      (buildVideoElement v).2 = none →
      XNode.elem "video:duration" [] [.text (.n d)] ∈ (buildVideoElement v).1) := by
  refine ⟨?_, rfl, ⟨rfl, ?_⟩, ?_⟩
  · intro v h1 h2 h3 h4 h5
    unfold buildVideoElement
    rw [if_neg (by simp [h1, h2, h3])]
    rw [if_neg (by omega)]
    simp only [videoSteps]
    rw [runSteps_cons_of_err_none _ _ _ rfl]
    rw [runSteps_cons_of_err_none _ _ _ (videoPlayerLoc_err_none v)]
    have hdur : videoDuration v = ([], some .invalidVideoDuration) := by
      simp only [videoDuration, h5]
      rw [if_pos (by norm_num), if_pos (by norm_num)]
    rw [hdur, runSteps_cons_of_err_some _ _ _ _ rfl]
  · rw [show (buildVideoElement video_d28800).1 =
      [.elem "video:thumbnail_loc" [] [.text (.s "https://example.com/t.jpg")],
       .elem "video:title" [] [.cdata "T"],
       .elem "video:description" [] [.cdata "D"],
       .elem "video:duration" [] [.text (.n 28800)]] from rfl]
    exact List.mem_cons_of_mem _ (List.mem_cons_of_mem _ (List.mem_cons_of_mem _
      (List.Mem.head _)))
  · intro v d hd hd0 hnone
    unfold buildVideoElement at hnone ⊢
    by_cases hreq : strTruthy v.thumbnail_loc = true ∧ strTruthy v.title = true ∧
        strTruthy v.description = true
    · rw [if_neg (not_not_intro hreq)] at hnone ⊢
      by_cases hdesc : v.description.length > 2048
      · rw [if_pos hdesc] at hnone
        simp at hnone
      · rw [if_neg hdesc] at hnone ⊢
        by_cases hrange : d < 0 ∨ d > 28800
        · exfalso
          have hstep : (videoDuration v).2 = some .invalidVideoDuration := by
            simp only [videoDuration, hd]
            rw [if_pos hd0, if_pos hrange]
          exact runSteps_err_of_mem_err (videoDuration v) (videoSteps v) _
            (by simp [videoSteps]) hstep _ hnone
        · refine mem_runSteps_of_step _ (videoDuration v) _ _ hnone (by simp [videoSteps]) ?_
          have hstep : videoDuration v = ([.elem "video:duration" [] [.text (.n d)]], none) := by
            simp only [videoDuration, hd]
            rw [if_pos hd0, if_neg hrange]
          rw [hstep]
          exact List.Mem.head _
    · rw [if_pos hreq] at hnone
      simp at hnone

/-- C3 witness: duration 28801 fails at the concrete video, and the accepted
duration 28800 appears unchanged in the concrete output. -/
theorem C3_witness :
    (buildVideoElement video_d28801).2 = some .invalidVideoDuration ∧
    XNode.elem "video:duration" [] [.text (.n 28800)] ∈ (buildVideoElement video_d28800).1 :=
  ⟨C3_thm.1 video_d28801 (by decide) (by decide) (by decide) (by decide) rfl,
   C3_thm.2.2.2 video_d28800 28800 rfl (by norm_num) rfl⟩

/-- Splitting at a character that does not occur returns the whole list as the
single segment. -/
theorem splitChar_not_mem (sep : Char) (l : List Char) (h : sep ∉ l) :
    splitChar sep l = [l] := by
  induction l with
  | nil => rfl
  | cons c rest ih =>
    have hc : ¬ (c = sep) := fun hh => h (hh ▸ List.mem_cons_self c rest)
    have hr : sep ∉ rest := fun hh => h (List.mem_cons_of_mem c hh)
    simp only [splitChar, ih hr]
    rw [if_neg hc]

/-- A key with no colon splits into a single segment, like JS `split(':')`. -/
theorem splitOnColon_no_colon (key : String) (h : ':' ∉ key.data) :
    splitOnColon key = [key] := by
  unfold splitOnColon
  rw [splitChar_not_mem ':' key.data h]
  rfl

/-- On a single two-segment key with a registered validator, `attrBuilder`
reduces to the validator's verdict: acceptance extends the mapping with
`subkey → value`, rejection throws `InvalidAttrValue`. -/
theorem attrBuilder_single_validator (conf : String → Option String) (key v : String)
    (pat : String → Bool) (h : conf key = some v) (hk : (splitOnColon key).length = 2)
    (hv : validators key = some pat) :
    attrBuilder conf [key] =
      if pat v then .ok [((splitOnColon key).getD 1 "", v)]
      else .error (.invalidAttrValue key v) := by
  simp only [attrBuilder, attrBuilderAux, h, hv]
  rw [if_neg (by simp [hk])]
  split
  · rfl
  · rfl

/-- C4: on any source mapping, a present key containing no colon fails with
Invalid-attribute-key (the extractor never consults the `safe` flag — it is
not even an input); the value "usd" for `price:currency` fails its pattern
with Invalid-attribute-value; and "USD" is accepted, adding
`currency → "USD"` to the attribute mapping. -/
theorem C4_thm :
    (∀ (conf : String → Option String) (key v : String), conf key = some v →
      ':' ∉ key.data → attrBuilder conf [key] = .error (.invalidAttr key)) ∧
    (∀ conf : String → Option String, conf "price:currency" = some "usd" →
      attrBuilder conf ["price:currency"] =
        .error (.invalidAttrValue "price:currency" "usd")) ∧
    (∀ conf : String → Option String, conf "price:currency" = some "USD" →
      attrBuilder conf ["price:currency"] = .ok [("currency", "USD")]) := by
  refine ⟨?_, ?_, ?_⟩
  · intro conf key v h hcolon
    simp [attrBuilder, attrBuilderAux, h, splitOnColon_no_colon key hcolon]
  · intro conf h
    rw [attrBuilder_single_validator conf "price:currency" "usd" priceCurrencyPat h
      (by decide) rfl]
    rw [if_neg (by decide)]
  · intro conf h
    rw [attrBuilder_single_validator conf "price:currency" "USD" priceCurrencyPat h
      (by decide) rfl]
    rw [if_pos (by decide)]
    rw [show (splitOnColon "price:currency").getD 1 "" = "currency" by decide]

/-- C4 witness: the three behaviors at concrete mappings. -/
theorem C4_witness :
    attrBuilder (fun k => if k = "bogus" then some "x" else none) ["bogus"] =
      .error (.invalidAttr "bogus") ∧
    attrBuilder (fun k => if k = "price:currency" then some "usd" else none)
      ["price:currency"] = .error (.invalidAttrValue "price:currency" "usd") ∧
    attrBuilder (fun k => if k = "price:currency" then some "USD" else none)
      ["price:currency"] = .ok [("currency", "USD")] :=
  ⟨C4_thm.1 (fun k => if k = "bogus" then some "x" else none) "bogus" "x" rfl (by decide),
   C4_thm.2.1 (fun k => if k = "price:currency" then some "usd" else none) rfl,
   C4_thm.2.2 (fun k => if k = "price:currency" then some "USD" else none) rfl⟩

/-- C5 counterexample: "renting" equals neither "rent" nor "purchase"
case-insensitively, yet the attribute extractor accepts it for `price:type`
(the regex alternation anchors only its first and last alternatives, so the
prefix "rent" matches) — contradicting "accepted if and only if it equals
rent or purchase case-insensitively". -/
theorem C5_cx :
    lowerEq "renting" "rent" = false ∧ lowerEq "renting" "purchase" = false ∧
    attrBuilder (fun k => if k = "price:type" then some "renting" else none) ["price:type"] =
      .ok [("type", "renting")] :=
  ⟨by decide, by decide, rfl⟩

/-- C5 as amended: a `price:type` value presented to the attribute extractor is
accepted exactly when it starts with "rent", or contains "purchase", or
contains "RENT", or ends with "PURCHASE" (the unanchored middle alternatives
of `/^rent|purchase|RENT|PURCHASE$/`); any other value fails with the
Invalid-attribute-value error. -/
theorem C5_thm :
    ∀ (conf : String → Option String) (v : String), conf "price:type" = some v →
      ((strStarts v "rent" || strContainsSub v "purchase" || strContainsSub v "RENT" ||
          strEnds v "PURCHASE") = true →
        attrBuilder conf ["price:type"] = .ok [("type", v)]) ∧
      ((strStarts v "rent" || strContainsSub v "purchase" || strContainsSub v "RENT" ||
          strEnds v "PURCHASE") = false →
        attrBuilder conf ["price:type"] = .error (.invalidAttrValue "price:type" v)) := by
  intro conf v h
  have base := attrBuilder_single_validator conf "price:type" v priceTypePat h (by decide) rfl
  constructor
  · intro hp
    rw [base, if_pos (show priceTypePat v = true from hp)]
    rw [show (splitOnColon "price:type").getD 1 "" = "type" by decide]
  · intro hp
    rw [base, if_neg (by simp [show priceTypePat v = false from hp])]

/-- C5 witness: "rent" (a prefix match) is accepted, while "Rent" — equal to
"rent" case-insensitively — is rejected. -/
theorem C5_witness :
    attrBuilder (fun k => if k = "price:type" then some "rent" else none) ["price:type"] =
      .ok [("type", "rent")] ∧
    attrBuilder (fun k => if k = "price:type" then some "Rent" else none) ["price:type"] =
      .error (.invalidAttrValue "price:type" "Rent") :=
  ⟨(C5_thm (fun k => if k = "price:type" then some "rent" else none) "rent" rfl).1 (by decide),
   (C5_thm (fun k => if k = "price:type" then some "Rent" else none) "Rent" rfl).2 (by decide)⟩

/-- C6: a news input whose `publication.language` is non-truthy fails the news
build step with Invalid-news-format, whatever the other required and optional
news fields hold: the item constructs, and the build ends with the
Invalid-news-format exception pending. -/
theorem C6_thm :
    ∀ (n : NewsItem) (p : NewsPub) (dateISO : String → String),
      n.publication = some p → strTruthy p.language = false →
      ∃ st, buildConf dateISO { url := some "https://example.com/n", news := some n } =
          .ok st ∧ st.err = some .invalidNewsFormat := by
  intro n p dateISO hpub hlang
  refine ⟨_, rfl, ?_⟩
  simp only [buildXML, urlSteps]
  rw [runSteps_cons_of_err_none _ _ _ rfl]
  rw [runSteps_cons_of_err_none _ _ _ rfl]
  rw [runSteps_cons_of_err_none _ _ _ rfl]
  rw [runSteps_cons_of_err_none _ _ _ rfl]
  rw [runSteps_cons_of_err_none _ _ _ rfl]
  rw [runSteps_cons_of_err_none _ _ _ rfl]
  rw [runSteps_cons_of_err_none _ _ _ rfl]
  rw [runSteps_cons_of_err_none _ _ _ rfl]
  rw [runSteps_cons_of_err_none _ _ _ rfl]
  rw [runSteps_cons_of_err_none _ _ _ rfl]
  have hnews : ∀ it : Item, it.news = some n →
      newsStep it = ([.elem "news:news" [] []], some .invalidNewsFormat) := by
    intro it hit
    simp only [newsStep, hit]
    rw [if_pos (by simp [newsFormatOK, hpub, hlang])]
  rw [hnews _ rfl]
  rw [runSteps_cons_of_err_some _ _ _ _ rfl]

/-- A news entry missing only `publication.language`, with every other required
field and several optional fields populated. -/
def news_noLang : NewsItem :=
  { publication := some { name := "The Example Times" },
    publication_date := "2008-12-23", title := "Example Title",
    genres := some "PressRelease, Blog", keywords := some "example, news",
    stock_tickers := some "NASDAQ:EXMP" }

/-- C6 witness: the concrete news entry missing only the language fails the
build with Invalid-news-format. -/
theorem C6_witness :
    ∃ st, buildConf idEnv { url := some "https://example.com/n", news := some news_noLang } =
        .ok st ∧ st.err = some .invalidNewsFormat :=
  C6_thm news_noLang { name := "The Example Times" } idEnv rfl rfl
